import Mathlib

/-!
Shallow embedding of
src/services/python-service/app/services/orders/takeprofit_service.py.

Python data values appearing in request payloads and store records are
modelled by the inductive type `Val`; machine floats are modelled by `ℚ`
(the claims under verification concern the arithmetic formulas, not binary
rounding).  External collaborators (config lookup, group-data lookup,
trigger-store repository, Redis cluster, RabbitMQ publisher, provider
gateway, lifecycle registry) are modelled by an explicit environment
`Env` of oracles plus an explicit `State` recording every write the
orchestrator performs; each `try/except`-guarded external write is an
all-or-nothing step whose success is an oracle boolean.
-/

namespace TakeProfit

/-- Model of a Python value as found in a JSON-ish payload or config dict. -/
inductive Val where
  | none
  | num (q : ℚ)
  | str (s : String)
  | bool (b : Bool)
deriving DecidableEq

/-- Python truthiness of a `Val` (`None`, `0`, `""`, `False` are falsy). -/
def Val.truthy : Val → Bool
  | Val.none => false
  | Val.num q => if q = 0 then false else true
  | Val.str s => if s = "" then false else true
  | Val.bool b => b

/-- Model of Python `str(v)`.  Numeric rendering is modelled by Lean's
rational `toString`; no claim under verification depends on the exact
rendering of a number. -/
def pyStr : Val → String
  | Val.none => "None"
  | Val.num q => toString q
  | Val.str s => s
  | Val.bool b => if b then "True" else "False"

/-- Python `str.lower()` (character-wise, as this service's inputs are
ASCII identifiers). -/
def pyLower (s : String) : String := ⟨s.data.map Char.toLower⟩

/-- Python `str.upper()`. -/
def pyUpper (s : String) : String := ⟨s.data.map Char.toUpper⟩

/-- Python `str.strip()`: removes leading and trailing whitespace. -/
def pyStrip (s : String) : String :=
  ⟨((s.data.dropWhile Char.isWhitespace).reverse.dropWhile Char.isWhitespace).reverse⟩

/-- Digits of a decimal literal to a natural number; `Option.none` if the
character list is empty or contains a non-digit. -/
def natOfDigits? (cs : List Char) : Option Nat :=
  if cs = [] then Option.none
  else if cs.all Char.isDigit then
    Option.some (cs.foldl (fun a c => a * 10 + (c.toNat - 48)) 0)
  else Option.none

/-- Unsigned decimal literal (`"12"`, `"1.5"`, `"1."`, `".5"`) to `ℚ`. -/
def parseUnsigned? (cs : List Char) : Option ℚ :=
  let a := cs.takeWhile (fun c => c ≠ '.')
  match cs.dropWhile (fun c => c ≠ '.') with
  | [] => (natOfDigits? a).map (fun n => (n : ℚ))
  | _ :: b =>
    if b.contains '.' then Option.none
    else if a = [] ∧ b = [] then Option.none
    else
      match (if a = [] then Option.some 0 else natOfDigits? a),
            (if b = [] then Option.some 0 else natOfDigits? b) with
      | Option.some ip, Option.some fp =>
          Option.some ((ip : ℚ) + (fp : ℚ) / ((10 : ℚ) ^ b.length))
      | _, _ => Option.none

/-- Model of Python `float(s)` on strings: optional surrounding whitespace,
optional sign, decimal digits with an optional fractional part.  (Exponent
notation and `inf`/`nan` literals are outside the modelled subset; no claim
depends on them.) -/
def parseFloat? (s : String) : Option ℚ :=
  match (pyStrip s).data with
  | '-' :: rest => (parseUnsigned? rest).map (fun q => -q)
  | '+' :: rest => parseUnsigned? rest
  | t => parseUnsigned? t

/-- Embeds `_safe_float` (source lines 13-19): `None` for `None` and
unparsable values, the numeric value otherwise (`float(True) = 1.0`). -/
def safe_float : Val → Option ℚ
  | Val.none => Option.none
  | Val.num q => Option.some q
  | Val.str s => parseFloat? s
  | Val.bool b => Option.some (if b then 1 else 0)

/-- `_safe_float` applied to an optional Redis string field. -/
def safe_float_os : Option String → Option ℚ
  | Option.none => Option.none
  | Option.some s => parseFloat? s

/-- A request payload: a Python dict of `Val`s, modelled as an association
list (first binding wins, as produced by dict construction). -/
abbrev Payload := List (String × Val)

/-- Model of `payload.get(k)` / `payload[k]`: the bound value, `Val.none`
when the key is absent. -/
def pget : Payload → String → Val
  | [], _ => Val.none
  | (k, v) :: t, k' => if k' = k then v else pget t k'

/-- Model of `k in payload`. -/
def pmem : Payload → String → Bool
  | [], _ => false
  | (k, _) :: t, k' => if k' = k then true else pmem t k'

/-- A Redis hash: field → string value, as an association list where the
most recent write is consed on the front. -/
abbrev Hash := List (String × String)

/-- Model of `hash.get(field)`. -/
def hget : Hash → String → Option String
  | [], _ => Option.none
  | (f, v) :: t, f' => if f' = f then Option.some v else hget t f'

/-- Model of `HDEL`: removes every binding of the field. -/
def hdel : Hash → String → Hash
  | [], _ => []
  | (f, v) :: t, f' => if f = f' then hdel t f' else (f, v) :: hdel t f'

/-- The Redis keyspace: key → hash. -/
abbrev Store := List (String × Hash)

/-- Model of `HGETALL key` (the empty hash when the key is absent). -/
def rget : Store → String → Hash
  | [], _ => []
  | (k, h) :: t, k' => if k' = k then h else rget t k'

/-- Replaces the hash stored at a key. -/
def rset (r : Store) (k : String) (h : Hash) : Store := (k, h) :: r

/-- Model of `HSET key mapping={...}`: later fields of the mapping override
earlier ones, existing fields not in the mapping are kept. -/
def rhset (r : Store) (k : String) (m : List (String × String)) : Store :=
  rset r k (m.foldl (fun h kv => kv :: h) (rget r k))

/-- Model of `HDEL key field`. -/
def rhdel (r : Store) (k f : String) : Store := rset r k (hdel (rget r k) f)

/-- A row of the trigger-monitor store, with the argument order of
`upsert_order_triggers` (source lines 81-91). -/
structure Trigger where
  symbol : String
  side : String
  user_type : String
  user_id : String
  stop_loss : Option ℚ
  take_profit : ℚ
  score_stop_loss : Option ℚ
  score_take_profit : ℚ
deriving DecidableEq

/-- Lookup in the trigger store. -/
def tget : List (String × Trigger) → String → Option Trigger
  | [], _ => Option.none
  | (k, v) :: t, k' => if k' = k then Option.some v else tget t k'

/-- Removal of every trigger row for an order id. -/
def tdel : List (String × Trigger) → String → List (String × Trigger)
  | [], _ => []
  | (k, v) :: t, k' => if k = k' then tdel t k' else (k, v) :: tdel t k'

/-- A durable DB-update event published to the queue (source lines 119-125
and 295-300). -/
structure DbMsg where
  kind : String
  order_id : String
  user_id : String
  user_type : String
  take_profit : Option ℚ
deriving DecidableEq

/-- A payload handed to `send_provider_order`; optional fields are the dict
keys that are only sometimes present. -/
structure ProviderMsg where
  order_id : String
  symbol : String
  order_status : Option String
  status : String
  order_type : String
  takeprofit : Option ℚ
  takeprofit_id : Option String
  takeprofit_cancel_id : Option String
  take_profit_cancel_id : Option String
  contract_value : Option ℚ
  order_quantity : Option ℚ
  kind : String
deriving DecidableEq

/-- The observable world the orchestrator writes to: the trigger store, the
Redis keyspace, the messages passed to the provider gateway, the durable
events passed to the publisher, the lifecycle-registry associations, and
the escalation log entries modelled for the cancel read-back check. -/
structure State where
  triggers : List (String × Trigger)
  redis : Store
  sent : List ProviderMsg
  published : List DbMsg
  lifecycle : List (String × String × String)
  logs : List String
deriving DecidableEq

/-- Result of `fetch_user_config` (external; modelled from the spec: the
account-config lookup returns a group name and a routing preference, both
optional string fields of the config record). -/
structure Cfg where
  group : Option String
  sending_orders : Option String

/-- Result of `fetch_group_data` (external): the group market-parameter
fields read by this service, each an arbitrary `Val`. -/
structure GroupData where
  spread : Val
  spread_pip : Val
  contract_size : Val

/-- Environment of oracles for every external call the service makes.  Each
`try/except`-guarded write is modelled as an all-or-nothing step whose
success is a boolean here; reads of stores not written in this request are
oracle functions. -/
structure Env where
  /-- `fetch_user_config(user_type, user_id)`. -/
  user_cfg : String → String → Cfg
  /-- `fetch_group_data(symbol, group)`; `Option.none` models a raised
  exception. -/
  group_data : String → String → Option GroupData
  /-- Modelled from the spec: `TriggerStore.Upsert(...) -> bool`
  (`upsert_order_triggers`); on `true` the row is stored, on `false` the
  store is unchanged and the failure is reported to the caller. -/
  upsert_ok : Bool
  /-- Local-add `order_data` mirror write (lines 96-105) succeeds. -/
  mirror_order_data_ok : Bool
  /-- Local-add `user_holdings` mirror write (lines 107-115) succeeds. -/
  mirror_holdings_ok : Bool
  /-- Local-add durable publish (lines 117-141) succeeds. -/
  publish_ok : Bool
  /-- `add_lifecycle_id` (external registry append) succeeds. -/
  lifecycle_ok : Bool
  /-- Provider-add status=TAKEPROFIT pipeline (lines 167-177) succeeds. -/
  mark_tp_ok : Bool
  /-- Provider-add `hgetall` fallback read (lines 184-193) succeeds. -/
  hgetall_ok : Bool
  /-- Modelled from the spec: `ProviderGateway.Send(payload) -> (ok,
  channel)` (`send_provider_order`): the success flag of the send. -/
  send_ok : Bool
  /-- The channel identifier returned by `send_provider_order`. -/
  send_via : String
  /-- Local-cancel `remove_takeprofit_trigger` (modelled from the spec:
  `TriggerStore.Remove(order_id)`, best-effort row removal) succeeds. -/
  remove_trigger_ok : Bool
  /-- Local-cancel clear pipeline (lines 278-289) succeeds. -/
  cancel_clear_ok : Bool
  /-- Local-cancel durable publish (lines 291-313) succeeds. -/
  cancel_publish_ok : Bool
  /-- Provider-cancel status=TAKEPROFIT-CANCEL pipeline (lines 355-366)
  succeeds. -/
  cancel_mark_ok : Bool
  /-- The stringified exception when that pipeline fails. -/
  cancel_mark_err : String
  /-- Provider-cancel read-back `hget(order_data_key, "status")` (line
  372): Redis is a shared store that concurrent writers may change between
  the write and the read-back, so the observation is an oracle;
  `Option.none` models a raised exception, `Option.some v` the observed
  value. -/
  verify_read : Option (Option String)

/-- Redis key `"order_data:{order_id}"`. -/
def order_data_key (order_id : String) : String := "order_data:" ++ order_id

/-- Redis key `"user_holdings:{user_type:user_id}:{order_id}"` (the braces
around the hash tag are literal characters of the key). -/
def holdings_key (user_type user_id order_id : String) : String :=
  "user_holdings:\x7b" ++ user_type ++ ":" ++ user_id ++ "\x7d:" ++ order_id

/-- `cfg.get("group") or "Standard"`: the group name, defaulting when the
field is absent or falsy. -/
def cfgGroupStr (c : Cfg) : String :=
  match c.group with
  | Option.none => "Standard"
  | Option.some g => if g = "" then "Standard" else g

/-- `(cfg.get("sending_orders") or "").strip().lower()`. -/
def cfgSendingStr (c : Cfg) : String :=
  match c.sending_orders with
  | Option.none => ""
  | Option.some s => pyLower (pyStrip s)

/-- The flow-resolution decision chain, written identically in
`add_takeprofit` (lines 56-70) and `cancel_takeprofit` (lines 257-271);
`Option.none` is the `unsupported_flow` early return. -/
def resolve_flow (user_type sending_orders : String) : Option String :=
  if user_type = "demo" ∨ (user_type = "live" ∧ sending_orders = "rock") then
    Option.some "local"
  else if user_type = "live" ∧ sending_orders = "barclays" then
    Option.some "provider"
  else if user_type = "strategy_provider" ∨ user_type = "copy_follower" then
    if sending_orders = "rock" then Option.some "local"
    else if sending_orders = "barclays" then Option.some "provider"
    else Option.some "provider"
  else Option.none

/-- Embeds `_compute_half_spread` (lines 22-32) with the group-data fetch
outcome already resolved: `Option.none` is a raised/failed lookup. -/
def compute_half_spread (g : Option GroupData) : ℚ :=
  match g with
  | Option.none => 0
  | Option.some gd =>
    match safe_float gd.spread, safe_float gd.spread_pip with
    | Option.some s, Option.some sp => s * sp / 2
    | _, _ => 0

/-- The spread adjustment applied to a raw take-profit price, written
identically on the local path (lines 76-79) and the provider path (lines
155-158): add the half spread for BUY, subtract it for SELL. -/
def adjusted_price (raw : ℚ) (side : String) (half_spread : ℚ) : ℚ :=
  if side = "BUY" then raw + half_spread else raw - half_spread

/-- The required-field list of `add_takeprofit` validation (line 37). -/
def requiredAdd : List String :=
  ["order_id", "user_id", "user_type", "symbol", "order_type", "take_profit"]

/-- The required-field list of `cancel_takeprofit` validation (line 242). -/
def requiredCancel : List String :=
  ["order_id", "user_id", "user_type", "symbol", "order_type", "takeprofit_id"]

/-- The missing-field list computed by `add_takeprofit`. -/
def addMissing (p : Payload) : List String :=
  requiredAdd.filter (fun k => !(pmem p k))

/-- The missing-field list computed by `cancel_takeprofit`. -/
def cancelMissing (p : Payload) : List String :=
  requiredCancel.filter (fun k => !(pmem p k))

/-- `str(payload["order_id"])` in `add_takeprofit`. -/
def pOrderId (p : Payload) : String := pyStr (pget p "order_id")

/-- `str(payload["user_id"])` in `add_takeprofit`. -/
def pUserId (p : Payload) : String := pyStr (pget p "user_id")

/-- `str(payload["user_type"]).lower()` in `add_takeprofit`. -/
def pUserType (p : Payload) : String := pyLower (pyStr (pget p "user_type"))

/-- `str(payload["symbol"]).upper()` in `add_takeprofit`. -/
def pSymbol (p : Payload) : String := pyUpper (pyStr (pget p "symbol"))

/-- `str(payload["order_type"]).upper()` in `add_takeprofit`. -/
def pSide (p : Payload) : String := pyUpper (pyStr (pget p "order_type"))

/-- `_safe_float(payload.get("take_profit"))`. -/
def addTp? (p : Payload) : Option ℚ := safe_float (pget p "take_profit")

/-- `str(payload["order_id"]).strip()` in `cancel_takeprofit`. -/
def cOrderId (p : Payload) : String := pyStrip (pyStr (pget p "order_id"))

/-- `str(payload["user_id"]).strip()` in `cancel_takeprofit`. -/
def cUserId (p : Payload) : String := pyStrip (pyStr (pget p "user_id"))

/-- `str(payload["user_type"]).lower().strip()` in `cancel_takeprofit`. -/
def cUserType (p : Payload) : String := pyStrip (pyLower (pyStr (pget p "user_type")))

/-- `str(payload["symbol"]).upper().strip()` in `cancel_takeprofit`. -/
def cSymbol (p : Payload) : String := pyStrip (pyUpper (pyStr (pget p "symbol")))

/-- `str(payload["order_type"]).upper().strip()` in `cancel_takeprofit`. -/
def cSide (p : Payload) : String := pyStrip (pyUpper (pyStr (pget p "order_type")))

/-- The normalized `sending_orders` seen by `add_takeprofit` for payload
`p` under environment `env`. -/
def addSending (env : Env) (p : Payload) : String :=
  cfgSendingStr (env.user_cfg (pUserType p) (pUserId p))

/-- The group name seen by `add_takeprofit`. -/
def addGroup (env : Env) (p : Payload) : String :=
  cfgGroupStr (env.user_cfg (pUserType p) (pUserId p))

/-- The normalized `sending_orders` seen by `cancel_takeprofit`. -/
def cancelSending (env : Env) (p : Payload) : String :=
  cfgSendingStr (env.user_cfg (cUserType p) (cUserId p))

/-- The half spread computed by `add_takeprofit` (line 72). -/
def addHalfSpread (env : Env) (p : Payload) : ℚ :=
  compute_half_spread (env.group_data (pSymbol p) (addGroup env p))

/-- Structured model of the result dicts returned by the two operations;
each constructor carries exactly the data the corresponding dict carries
beyond its fixed `ok`/`reason`/`flow`/`note` fields. -/
inductive Result where
  | missingFields (fields : List String)
  | invalidOrderType
  | invalidTakeProfit
  | unsupportedFlow (user_type sending_orders : String)
  | upsertTriggersFailed
  | providerSendFailed (via : String)
  | redisStatusUpdateFailed (err : String)
  | localAddOk (order_id symbol order_type : String) (take_profit score_take_profit : ℚ)
  | providerAddOk (order_id symbol order_type : String) (take_profit_sent : ℚ)
  | localCancelOk (order_id symbol order_type : String)
  | providerCancelOk (order_id symbol order_type : String)
deriving DecidableEq

/-- The local path of `add_takeprofit` (lines 74-151): authoritative
trigger upsert, then best-effort cache mirrors and durable publish. -/
def add_local (env : Env) (st : State) (oid uid ut sym side : String)
    (tp hs : ℚ) : State × Result :=
  let score := adjusted_price tp side hs
  if env.upsert_ok then
    let st1 : State := { st with
      triggers := (oid, ⟨sym, side, ut, uid, Option.none, tp, Option.none, score⟩) :: st.triggers }
    let r2 := rhset st1.redis (order_data_key oid)
      [("symbol", sym), ("order_type", side), ("user_type", ut),
       ("user_id", uid), ("take_profit", toString tp)]
    let st2 : State := if env.mirror_order_data_ok then { st1 with redis := r2 } else st1
    let r3 := rhset st2.redis (holdings_key ut uid oid) [("take_profit", toString tp)]
    let st3 : State := if env.mirror_holdings_ok then { st2 with redis := r3 } else st2
    let pub : DbMsg := ⟨"ORDER_TAKEPROFIT_SET", oid, uid, ut, Option.some tp⟩
    let st4 : State := if env.publish_ok then
        { st3 with published := st3.published ++ [pub] }
      else st3
    (st4, Result.localAddOk oid sym side tp score)
  else (st, Result.upsertTriggersFailed)

/-- Provider-add steps up to the gateway payload: best-effort lifecycle
registration (lines 160-165) and best-effort status=TAKEPROFIT marking of
both cache keyspaces (lines 167-177). -/
def add_provider_pre (env : Env) (st : State) (p : Payload)
    (oid uid ut sym side : String) : State :=
  let lc1 := st.lifecycle ++ [(oid, pyStr (pget p "takeprofit_id"), "takeprofit_id")]
  let st1 : State :=
    if (pget p "takeprofit_id").truthy then
      if env.lifecycle_ok then { st with lifecycle := lc1 } else st
    else st
  let rMark := rhset
    (rhset st1.redis (order_data_key oid)
      [("status", "TAKEPROFIT"), ("symbol", sym), ("order_type", side)])
    (holdings_key ut uid oid) [("status", "TAKEPROFIT")]
  if env.mark_tp_ok then { st1 with redis := rMark } else st1

/-- The gateway payload composed by provider-add (lines 179-225), reading
the canonical cache record of `stMark` (the state after the marking step)
for missing quantity/entry-price/contract-value. -/
def add_provider_msg (env : Env) (stMark : State) (p : Payload)
    (oid sym side group : String) (tp hs : ℚ) : ProviderMsg :=
  let order_status_in : String :=
    if (pget p "order_status").truthy then pyStr (pget p "order_status") else "OPEN"
  let qty0 := safe_float (pget p "order_quantity")
  let ep0 := safe_float (pget p "order_price")
  let qec : Option ℚ × Option ℚ × Option ℚ :=
    if qty0 = Option.none ∨ ep0 = Option.none then
      if env.hgetall_ok then
        let od := rget stMark.redis (order_data_key oid)
        (if qty0 = Option.none then safe_float_os (hget od "order_quantity") else qty0,
         if ep0 = Option.none then safe_float_os (hget od "order_price") else ep0,
         if od = [] then Option.none else safe_float_os (hget od "contract_value"))
      else (qty0, ep0, Option.none)
    else (qty0, ep0, Option.none)
  let qty := qec.1
  let ep := qec.2.1
  let cv_existing := qec.2.2
  let contract_value : Option ℚ :=
    match cv_existing with
    | Option.some c => Option.some c
    | Option.none =>
      match env.group_data sym group with
      | Option.none => Option.none
      | Option.some g =>
        let cs : ℚ := match safe_float g.contract_size with
          | Option.some c => if c = 0 then 1 else c
          | Option.none => 1
        match qty, ep with
        | Option.some q, Option.some e => Option.some (cs * q * e)
        | _, _ => Option.none
  { order_id := oid, symbol := sym, order_status := Option.some order_status_in,
    status := "TAKEPROFIT", order_type := side,
    takeprofit := Option.some (adjusted_price tp side hs),
    takeprofit_id := if (pget p "takeprofit_id").truthy
      then Option.some (pyStr (pget p "takeprofit_id")) else Option.none,
    takeprofit_cancel_id := Option.none, take_profit_cancel_id := Option.none,
    contract_value := contract_value, order_quantity := qty, kind := "order" }

/-- The provider path of `add_takeprofit` (lines 153-239): best-effort
lifecycle registration and status=TAKEPROFIT marking, quantity/entry-price
fallback from the canonical cache record, contract-value derivation, then
the gateway send. -/
def add_provider (env : Env) (st : State) (p : Payload)
    (oid uid ut sym side group : String) (tp hs : ℚ) : State × Result :=
  let st2 := add_provider_pre env st p oid uid ut sym side
  let msg := add_provider_msg env st2 p oid sym side group tp hs
  let st3 : State := { st2 with sent := st2.sent ++ [msg] }
  if env.send_ok then (st3, Result.providerAddOk oid sym side (adjusted_price tp side hs))
  else (st3, Result.providerSendFailed env.send_via)

/-- Embeds `TakeProfitService.add_takeprofit` (lines 36-239). -/
def add_takeprofit (env : Env) (st : State) (p : Payload) : State × Result :=
  if addMissing p = [] then
    if pSide p = "BUY" ∨ pSide p = "SELL" then
      match addTp? p with
      | Option.some tp =>
        if tp ≤ 0 then (st, Result.invalidTakeProfit)
        else
          match resolve_flow (pUserType p) (addSending env p) with
          | Option.some f =>
            if f = "local" then
              add_local env st (pOrderId p) (pUserId p) (pUserType p)
                (pSymbol p) (pSide p) tp (addHalfSpread env p)
            else
              add_provider env st p (pOrderId p) (pUserId p) (pUserType p)
                (pSymbol p) (pSide p) (addGroup env p) tp (addHalfSpread env p)
          | Option.none =>
            (st, Result.unsupportedFlow (pUserType p) (addSending env p))
      | Option.none => (st, Result.invalidTakeProfit)
    else (st, Result.invalidOrderType)
  else (st, Result.missingFields (addMissing p))

/-- The local path of `cancel_takeprofit` (lines 273-322): best-effort
trigger removal, cache clear + status=OPEN, durable publish; always
succeeds once reached. -/
def cancel_local (env : Env) (st : State) (oid uid ut sym side : String) :
    State × Result :=
  let st1 : State := if env.remove_trigger_ok then
      { st with triggers := tdel st.triggers oid }
    else st
  let rClear := rhset
    (rhset
      (rhdel (rhdel st1.redis (order_data_key oid) "take_profit")
        (holdings_key ut uid oid) "take_profit")
      (order_data_key oid)
      [("status", "OPEN"), ("symbol", sym), ("order_type", side)])
    (holdings_key ut uid oid) [("status", "OPEN")]
  let st2 : State := if env.cancel_clear_ok then { st1 with redis := rClear } else st1
  let pub : DbMsg := ⟨"ORDER_TAKEPROFIT_CANCEL", oid, uid, ut, Option.none⟩
  let st3 : State := if env.cancel_publish_ok then
      { st2 with published := st2.published ++ [pub] }
    else st2
  (st3, Result.localCancelOk oid sym side)

/-- `str(payload.get("takeprofit_cancel_id") or "").strip()` (line 324). -/
def cancelTpcId (p : Payload) : String :=
  pyStrip (if (pget p "takeprofit_cancel_id").truthy
    then pyStr (pget p "takeprofit_cancel_id") else "")

/-- The cancel-control payload composed by provider-cancel (lines
331-343). -/
def cancel_provider_msg (p : Payload) (oid sym side : String) : ProviderMsg :=
  let tpcid := cancelTpcId p
  let tpid := pyStrip (if (pget p "takeprofit_id").truthy
    then pyStr (pget p "takeprofit_id") else "")
  { order_id := oid, symbol := sym, order_status := Option.none,
    status := "TAKEPROFIT-CANCEL", order_type := side,
    takeprofit := Option.none, takeprofit_id := Option.some tpid,
    takeprofit_cancel_id := Option.some tpcid,
    take_profit_cancel_id := if tpcid = "" then Option.none else Option.some tpcid,
    contract_value := Option.none, order_quantity := Option.none,
    kind := "order" }

/-- The provider path of `cancel_takeprofit` (lines 324-393): best-effort
lifecycle registration, gateway send (terminal on failure), load-bearing
status=TAKEPROFIT-CANCEL marking (terminal on failure), and a read-back
verification whose mismatch only appends an escalation log entry. -/
def cancel_provider (env : Env) (st : State) (p : Payload)
    (oid uid ut sym side : String) : State × Result :=
  let tpcid := cancelTpcId p
  let st1 : State :=
    if tpcid = "" then st
    else if env.lifecycle_ok then
      { st with lifecycle := st.lifecycle ++ [(oid, tpcid, "takeprofit_cancel_id")] }
    else st
  let msg := cancel_provider_msg p oid sym side
  let st2 : State := { st1 with sent := st1.sent ++ [msg] }
  if env.send_ok then
    if env.cancel_mark_ok then
      let rMark := rhset
        (rhset st2.redis (order_data_key oid)
          [("status", "TAKEPROFIT-CANCEL"), ("symbol", sym),
           ("order_type", side), ("takeprofit_cancel_id", tpcid)])
        (holdings_key ut uid oid) [("status", "TAKEPROFIT-CANCEL")]
      let st3 : State := { st2 with redis := rMark }
      let st4 : State :=
        match env.verify_read with
        | Option.none => { st3 with logs := st3.logs ++ ["tp_cancel_verify_error"] }
        | Option.some v =>
          if v = Option.some "TAKEPROFIT-CANCEL" then st3
          else { st3 with logs := st3.logs ++ ["tp_cancel_verify_failed"] }
      (st4, Result.providerCancelOk oid sym side)
    else (st2, Result.redisStatusUpdateFailed env.cancel_mark_err)
  else (st2, Result.providerSendFailed env.send_via)

/-- Embeds `TakeProfitService.cancel_takeprofit` (lines 241-393). -/
def cancel_takeprofit (env : Env) (st : State) (p : Payload) : State × Result :=
  if cancelMissing p = [] then
    if cSide p = "BUY" ∨ cSide p = "SELL" then
      match resolve_flow (cUserType p) (cancelSending env p) with
      | Option.some f =>
        if f = "local" then
          cancel_local env st (cOrderId p) (cUserId p) (cUserType p)
            (cSymbol p) (cSide p)
        else
          cancel_provider env st p (cOrderId p) (cUserId p) (cUserType p)
            (cSymbol p) (cSide p)
      | Option.none =>
        (st, Result.unsupportedFlow (cUserType p) (cancelSending env p))
    else (st, Result.invalidOrderType)
  else (st, Result.missingFields (cancelMissing p))

/-- One observation of the `provider:ack:{id}` key during a poll of
`_wait_for_provider_ack` (lines 396-419). `absent` is a falsy `GET` reply,
`getError` a raised exception anywhere in the poll body, and `record v`
a truthy reply whose parsed `ord_status` field is `v` (`Val.none` both when
the field is missing and when the JSON was malformed or null, since
`(data or {}).get("ord_status")` is `None` in every one of those cases). -/
inductive RawAck where
  | absent
  | getError
  | record (v : Val)
deriving DecidableEq

/-- The status string the loop body computes from one observation:
`str((data or {}).get("ord_status") or "").upper()`, or `Option.none` when
the body performs no membership test (falsy reply / exception). -/
def ackStatus : RawAck → Option String
  | RawAck.absent => Option.none
  | RawAck.getError => Option.none
  | RawAck.record v =>
    Option.some (if v.truthy then pyUpper (pyStr v) else "")

/-- Number of loop iterations of `_wait_for_provider_ack`: the loop runs
while `time.time() < deadline` with `deadline = start + timeout_ms/1000`
and a fixed 0.1 s sleep per iteration, so polls happen at elapsed times
`0.1·i < timeout_ms/1000`, i.e. `⌈timeout_ms/100⌉` polls; a zero or
negative timeout puts the deadline at or before the first clock read and
the loop body never runs. -/
def num_polls (timeout_ms : Int) : Nat :=
  if timeout_ms ≤ 0 then 0 else ((timeout_ms + 99) / 100).toNat

/-- The polling loop: `reads i` is the observation of the `i`-th poll. -/
def ackLoop (reads : Nat → RawAck) (expect : List String) :
    Nat → Nat → Option String
  | 0, _ => Option.none
  | fuel + 1, i =>
    match ackStatus (reads i) with
    | Option.some s =>
      if s ∈ expect then Option.some s else ackLoop reads expect fuel (i + 1)
    | Option.none => ackLoop reads expect fuel (i + 1)

/-- Embeds `_wait_for_provider_ack`: the expected-status set is the
upper-cased `expected_statuses` (`{str(s).upper() for s in ...}`), and the
loop polls `num_polls timeout_ms` times before the deadline elapses. -/
def wait_for_provider_ack (reads : Nat → RawAck) (expected_statuses : List String)
    (timeout_ms : Int) : Option String :=
  ackLoop reads (expected_statuses.map pyUpper) (num_polls timeout_ms) 0

/-! ### Concrete fixtures used by the witness theorems -/

/-- A user config with the given routing preference. -/
def cfgOf (so : Option String) : Cfg := ⟨Option.some "Standard", so⟩

/-- Concrete group market parameters: spread 2, spread_pip 1, contract size
100, so the half spread is 2 · 1 / 2 = 1. -/
def gdStd : GroupData := ⟨Val.num 2, Val.num 1, Val.num 100⟩

/-- An all-writes-succeed environment over the given config and group
data. -/
def mkEnv (c : Cfg) (g : Option GroupData) : Env :=
  { user_cfg := fun _ _ => c, group_data := fun _ _ => g,
    upsert_ok := true, mirror_order_data_ok := true, mirror_holdings_ok := true,
    publish_ok := true, lifecycle_ok := true, mark_tp_ok := true, hgetall_ok := true,
    send_ok := true, send_via := "persistent", remove_trigger_ok := true,
    cancel_clear_ok := true, cancel_publish_ok := true, cancel_mark_ok := true,
    cancel_mark_err := "redis down",
    verify_read := Option.some (Option.some "TAKEPROFIT-CANCEL") }

/-- The empty initial state. -/
def st0 : State := ⟨[], [], [], [], [], []⟩

/-- A valid add payload for a demo account (take_profit 2). -/
def pAddDemo : Payload :=
  [("order_id", Val.str "O1"), ("user_id", Val.str "U1"),
   ("user_type", Val.str "demo"), ("symbol", Val.str "eurusd"),
   ("order_type", Val.str "buy"), ("take_profit", Val.num 2)]

/-- The same add payload for a live account. -/
def pAddLive : Payload :=
  [("order_id", Val.str "O1"), ("user_id", Val.str "U1"),
   ("user_type", Val.str "live"), ("symbol", Val.str "eurusd"),
   ("order_type", Val.str "buy"), ("take_profit", Val.num 2)]

/-- A valid cancel payload for a demo account. -/
def pCancelDemo : Payload :=
  [("order_id", Val.str "O1"), ("user_id", Val.str "U1"),
   ("user_type", Val.str "demo"), ("symbol", Val.str "eurusd"),
   ("order_type", Val.str "buy"), ("takeprofit_id", Val.str "TP1")]

/-- The same cancel payload for a live account. -/
def pCancelLive : Payload :=
  [("order_id", Val.str "O1"), ("user_id", Val.str "U1"),
   ("user_type", Val.str "live"), ("symbol", Val.str "eurusd"),
   ("order_type", Val.str "buy"), ("takeprofit_id", Val.str "TP1")]

/-- An add payload with an invalid order_type. -/
def pAddBadSide : Payload :=
  [("order_id", Val.str "O1"), ("user_id", Val.str "U1"),
   ("user_type", Val.str "demo"), ("symbol", Val.str "eurusd"),
   ("order_type", Val.str "hold"), ("take_profit", Val.num 2)]

/-- An add payload whose take_profit does not parse as a positive number. -/
def pAddZeroTp : Payload :=
  [("order_id", Val.str "O1"), ("user_id", Val.str "U1"),
   ("user_type", Val.str "demo"), ("symbol", Val.str "eurusd"),
   ("order_type", Val.str "buy"), ("take_profit", Val.num 0)]

/-- A cancel payload missing takeprofit_id (the §8 example). -/
def pCancelNoTpId : Payload :=
  [("order_id", Val.str "O1"), ("user_id", Val.str "U1"),
   ("user_type", Val.str "demo"), ("symbol", Val.str "eurusd"),
   ("order_type", Val.str "buy")]

/-- An add payload for the provider path carrying quantity, entry price and
a lifecycle id. -/
def pAddProv : Payload :=
  [("order_id", Val.str "O1"), ("user_id", Val.str "U1"),
   ("user_type", Val.str "live"), ("symbol", Val.str "eurusd"),
   ("order_type", Val.str "sell"), ("take_profit", Val.num 2),
   ("order_quantity", Val.num 3), ("order_price", Val.num 5),
   ("takeprofit_id", Val.str "TP1")]

/-- A cancel payload for the provider path carrying both lifecycle ids. -/
def pCancelProv : Payload :=
  [("order_id", Val.str "O1"), ("user_id", Val.str "U1"),
   ("user_type", Val.str "live"), ("symbol", Val.str "eurusd"),
   ("order_type", Val.str "sell"), ("takeprofit_id", Val.str "TP1"),
   ("takeprofit_cancel_id", Val.str "TPC1")]

/-! ### Store lemmas -/

theorem hget_hdel_self (h : Hash) (f : String) : hget (hdel h f) f = Option.none := by
  induction h with
  | nil => rfl
  | cons kv t ih =>
    obtain ⟨k, v⟩ := kv
    by_cases hk : k = f
    · simpa [hdel, hk] using ih
    · simp [hdel, hget, hk, Ne.symm hk, ih]

theorem rget_rset_self (r : Store) (k : String) (h : Hash) :
    rget (rset r k h) k = h := by
  simp [rget, rset]

theorem rget_rset_ne (r : Store) (k k' : String) (h : Hash) (hne : k' ≠ k) :
    rget (rset r k h) k' = rget r k' := by
  simp [rget, rset, hne]

theorem rget_rhset_self (r : Store) (k : String) (m : List (String × String)) :
    rget (rhset r k m) k = m.foldl (fun h kv => kv :: h) (rget r k) := by
  simp [rhset, rget_rset_self]

theorem rget_rhset_ne (r : Store) (k k' : String) (m : List (String × String))
    (hne : k' ≠ k) : rget (rhset r k m) k' = rget r k' := by
  simp [rhset, rget_rset_ne, hne]

theorem rget_rhdel_self (r : Store) (k f : String) :
    rget (rhdel r k f) k = hdel (rget r k) f := by
  simp [rhdel, rget_rset_self]

theorem rget_rhdel_ne (r : Store) (k k' f : String) (hne : k' ≠ k) :
    rget (rhdel r k f) k' = rget r k' := by
  simp [rhdel, rget_rset_ne, hne]

theorem order_data_key_ne_holdings_key (o u i o' : String) :
    order_data_key o ≠ holdings_key u i o' := by
  intro h
  have h2 : (order_data_key o).data = (holdings_key u i o').data := congrArg String.data h
  simp only [order_data_key, holdings_key, String.data_append] at h2
  simp at h2

/-! ### Control-flow evaluation lemmas -/

theorem add_eval_unsupported (env : Env) (st : State) (p : Payload)
    (hm : addMissing p = []) (hs : pSide p = "BUY" ∨ pSide p = "SELL")
    (tp : ℚ) (htp : addTp? p = Option.some tp) (hpos : ¬ tp ≤ 0)
    (hf : resolve_flow (pUserType p) (addSending env p) = Option.none) :
    add_takeprofit env st p
      = (st, Result.unsupportedFlow (pUserType p) (addSending env p)) := by
  simp [add_takeprofit, hm, hs, htp, hpos, hf]

theorem add_eval_local (env : Env) (st : State) (p : Payload)
    (hm : addMissing p = []) (hs : pSide p = "BUY" ∨ pSide p = "SELL")
    (tp : ℚ) (htp : addTp? p = Option.some tp) (hpos : ¬ tp ≤ 0)
    (hf : resolve_flow (pUserType p) (addSending env p) = Option.some "local") :
    add_takeprofit env st p
      = add_local env st (pOrderId p) (pUserId p) (pUserType p) (pSymbol p)
          (pSide p) tp (addHalfSpread env p) := by
  simp [add_takeprofit, hm, hs, htp, hpos, hf]

theorem add_eval_provider (env : Env) (st : State) (p : Payload)
    (hm : addMissing p = []) (hs : pSide p = "BUY" ∨ pSide p = "SELL")
    (tp : ℚ) (htp : addTp? p = Option.some tp) (hpos : ¬ tp ≤ 0)
    (hf : resolve_flow (pUserType p) (addSending env p) = Option.some "provider") :
    add_takeprofit env st p
      = add_provider env st p (pOrderId p) (pUserId p) (pUserType p) (pSymbol p)
          (pSide p) (addGroup env p) tp (addHalfSpread env p) := by
  simp [add_takeprofit, hm, hs, htp, hpos, hf]

theorem cancel_eval_unsupported (env : Env) (st : State) (p : Payload)
    (hm : cancelMissing p = []) (hs : cSide p = "BUY" ∨ cSide p = "SELL")
    (hf : resolve_flow (cUserType p) (cancelSending env p) = Option.none) :
    cancel_takeprofit env st p
      = (st, Result.unsupportedFlow (cUserType p) (cancelSending env p)) := by
  simp [cancel_takeprofit, hm, hs, hf]

theorem cancel_eval_local (env : Env) (st : State) (p : Payload)
    (hm : cancelMissing p = []) (hs : cSide p = "BUY" ∨ cSide p = "SELL")
    (hf : resolve_flow (cUserType p) (cancelSending env p) = Option.some "local") :
    cancel_takeprofit env st p
      = cancel_local env st (cOrderId p) (cUserId p) (cUserType p) (cSymbol p)
          (cSide p) := by
  simp [cancel_takeprofit, hm, hs, hf]

theorem cancel_eval_provider (env : Env) (st : State) (p : Payload)
    (hm : cancelMissing p = []) (hs : cSide p = "BUY" ∨ cSide p = "SELL")
    (hf : resolve_flow (cUserType p) (cancelSending env p) = Option.some "provider") :
    cancel_takeprofit env st p
      = cancel_provider env st p (cOrderId p) (cUserId p) (cUserType p) (cSymbol p)
          (cSide p) := by
  simp [cancel_takeprofit, hm, hs, hf]

/-! ### Claim theorems -/

/-- C1: flow resolution in both AddTakeProfit and CancelTakeProfit follows
the decision table of §4.1 — demo always resolves local; live resolves
local for rock and provider for barclays; strategy_provider/copy_follower
resolve local for rock, provider for barclays, and provider for any
other/unset preference; live with any other/unset preference and every
other account type are unsupported, and a validated request in that case
returns an UnsupportedFlow result carrying the offending
(account_type, routing_preference) pair with the state unchanged (no
writes performed). -/
theorem claim_C1 :
    (∀ ut so : String,
      (ut = "demo" → resolve_flow ut so = Option.some "local")
    ∧ (ut = "live" → so = "rock" → resolve_flow ut so = Option.some "local")
    ∧ (ut = "live" → so = "barclays" → resolve_flow ut so = Option.some "provider")
    ∧ ((ut = "strategy_provider" ∨ ut = "copy_follower") → so = "rock" →
        resolve_flow ut so = Option.some "local")
    ∧ ((ut = "strategy_provider" ∨ ut = "copy_follower") → so = "barclays" →
        resolve_flow ut so = Option.some "provider")
    ∧ ((ut = "strategy_provider" ∨ ut = "copy_follower") → so ≠ "rock" →
        so ≠ "barclays" → resolve_flow ut so = Option.some "provider")
    ∧ (ut = "live" → so ≠ "rock" → so ≠ "barclays" → resolve_flow ut so = Option.none)
    ∧ (ut ≠ "demo" → ut ≠ "live" → ut ≠ "strategy_provider" →
        ut ≠ "copy_follower" → resolve_flow ut so = Option.none))
  ∧ (∀ env st p (tp : ℚ), addMissing p = [] → (pSide p = "BUY" ∨ pSide p = "SELL") →
      addTp? p = Option.some tp → ¬ tp ≤ 0 →
      resolve_flow (pUserType p) (addSending env p) = Option.none →
      add_takeprofit env st p
        = (st, Result.unsupportedFlow (pUserType p) (addSending env p)))
  ∧ (∀ env st p, cancelMissing p = [] → (cSide p = "BUY" ∨ cSide p = "SELL") →
      resolve_flow (cUserType p) (cancelSending env p) = Option.none →
      cancel_takeprofit env st p
        = (st, Result.unsupportedFlow (cUserType p) (cancelSending env p))) := by
  refine ⟨fun ut so => ⟨?_, ?_, ?_, ?_, ?_, ?_, ?_, ?_⟩, ?_, ?_⟩
  · rintro rfl; simp [resolve_flow]
  · rintro rfl rfl; simp [resolve_flow]
  · rintro rfl rfl; simp [resolve_flow]
  · rintro (rfl | rfl) rfl <;> simp [resolve_flow]
  · rintro (rfl | rfl) rfl <;> simp [resolve_flow]
  · rintro (rfl | rfl) h1 h2 <;> simp [resolve_flow, h1, h2]
  · rintro rfl h1 h2; simp [resolve_flow, h1, h2]
  · intro h1 h2 h3 h4; simp [resolve_flow, h1, h2, h3, h4]
  · intro env st p tp hm hs htp hpos hf
    exact add_eval_unsupported env st p hm hs tp htp hpos hf
  · intro env st p hm hs hf
    exact cancel_eval_unsupported env st p hm hs hf

/-- Witness for C1: the table evaluated at a demo pair, and both
operations on a concrete live account with unset preference returning the
UnsupportedFlow result with no state change. -/
theorem claim_C1_witness :
    resolve_flow "demo" "barclays" = Option.some "local"
    ∧ add_takeprofit (mkEnv (cfgOf Option.none) (Option.some gdStd)) st0 pAddLive
        = (st0, Result.unsupportedFlow "live" "")
    ∧ cancel_takeprofit (mkEnv (cfgOf Option.none) (Option.some gdStd)) st0 pCancelLive
        = (st0, Result.unsupportedFlow "live" "") := by
  refine ⟨(claim_C1.1 "demo" "barclays").1 rfl, ?_, ?_⟩
  · have h := claim_C1.2.1 (mkEnv (cfgOf Option.none) (Option.some gdStd)) st0 pAddLive
      2 (by decide) (by decide) (by decide) (by decide) (by decide)
    exact h.trans (by decide)
  · have h := claim_C1.2.2 (mkEnv (cfgOf Option.none) (Option.some gdStd)) st0 pCancelLive
      (by decide) (by decide) (by decide)
    exact h.trans (by decide)

/-- C7: a payload missing required fields, or with an order_type outside
BUY/SELL, or (for Add) a take_profit that does not parse as a positive
number, makes AddTakeProfit and CancelTakeProfit return immediately a
validation result naming the missing/invalid field(s), with the state
unchanged and the result independent of the environment (so no store reads
or writes are performed). -/
theorem claim_C7 :
    (∀ env st p, addMissing p ≠ [] →
      add_takeprofit env st p = (st, Result.missingFields (addMissing p)))
  ∧ (∀ env st p, addMissing p = [] → ¬ (pSide p = "BUY" ∨ pSide p = "SELL") →
      add_takeprofit env st p = (st, Result.invalidOrderType))
  ∧ (∀ env st p, addMissing p = [] → (pSide p = "BUY" ∨ pSide p = "SELL") →
      (addTp? p = Option.none ∨ ∃ tp, addTp? p = Option.some tp ∧ tp ≤ 0) →
      add_takeprofit env st p = (st, Result.invalidTakeProfit))
  ∧ (∀ env st p, cancelMissing p ≠ [] →
      cancel_takeprofit env st p = (st, Result.missingFields (cancelMissing p)))
  ∧ (∀ env st p, cancelMissing p = [] → ¬ (cSide p = "BUY" ∨ cSide p = "SELL") →
      cancel_takeprofit env st p = (st, Result.invalidOrderType)) := by
  refine ⟨?_, ?_, ?_, ?_, ?_⟩
  · intro env st p hm; simp [add_takeprofit, hm]
  · intro env st p hm hs; simp [add_takeprofit, hm, hs]
  · intro env st p hm hs htp
    rcases htp with h | ⟨tp, h, hle⟩
    · simp [add_takeprofit, hm, hs, h]
    · simp [add_takeprofit, hm, hs, h, hle]
  · intro env st p hm; simp [cancel_takeprofit, hm]
  · intro env st p hm hs; simp [cancel_takeprofit, hm, hs]

/-- Witness for C7: concrete invalid payloads, including the §8 example of
a cancel payload missing takeprofit_id. -/
theorem claim_C7_witness :
    cancel_takeprofit (mkEnv (cfgOf Option.none) (Option.some gdStd)) st0 pCancelNoTpId
      = (st0, Result.missingFields ["takeprofit_id"])
    ∧ add_takeprofit (mkEnv (cfgOf Option.none) (Option.some gdStd)) st0 pAddBadSide
      = (st0, Result.invalidOrderType)
    ∧ add_takeprofit (mkEnv (cfgOf Option.none) (Option.some gdStd)) st0 pAddZeroTp
      = (st0, Result.invalidTakeProfit) := by
  refine ⟨?_, ?_, ?_⟩
  · have h := claim_C7.2.2.2.1 (mkEnv (cfgOf Option.none) (Option.some gdStd)) st0
      pCancelNoTpId (by decide)
    exact h.trans (by decide)
  · exact claim_C7.2.1 (mkEnv (cfgOf Option.none) (Option.some gdStd)) st0
      pAddBadSide (by decide) (by decide)
  · exact claim_C7.2.2.1 (mkEnv (cfgOf Option.none) (Option.some gdStd)) st0
      pAddZeroTp (by decide) (by decide)
      (Or.inr ⟨0, by decide, le_refl 0⟩)

theorem add_local_fail (env : Env) (st : State) (oid uid ut sym side : String)
    (tp hs : ℚ) (h : env.upsert_ok = false) :
    add_local env st oid uid ut sym side tp hs = (st, Result.upsertTriggersFailed) := by
  simp [add_local, h]

theorem add_local_snd (env : Env) (st : State) (oid uid ut sym side : String)
    (tp hs : ℚ) (h : env.upsert_ok = true) :
    (add_local env st oid uid ut sym side tp hs).2
      = Result.localAddOk oid sym side tp (adjusted_price tp side hs) := by
  simp [add_local, h]

theorem add_local_triggers (env : Env) (st : State) (oid uid ut sym side : String)
    (tp hs : ℚ) (h : env.upsert_ok = true) :
    (add_local env st oid uid ut sym side tp hs).1.triggers
      = (oid, ⟨sym, side, ut, uid, Option.none, tp, Option.none,
          adjusted_price tp side hs⟩) :: st.triggers := by
  simp only [add_local, h, if_true]
  split_ifs <;> rfl

/-- C5: the half spread equals spread · spread_pip / 2 when both group
parameters parse as numbers, and 0 whenever the group lookup fails or
either parameter is absent/non-numeric; and a missing or failed group
lookup never fails the request — a validated local-path add still returns
its success result whatever the group-data oracle returned. -/
theorem claim_C5 :
    (∀ (g : GroupData) (s sp : ℚ), safe_float g.spread = Option.some s →
      safe_float g.spread_pip = Option.some sp →
      compute_half_spread (Option.some g) = s * sp / 2)
  ∧ compute_half_spread Option.none = 0
  ∧ (∀ g : GroupData, safe_float g.spread = Option.none →
      compute_half_spread (Option.some g) = 0)
  ∧ (∀ g : GroupData, safe_float g.spread_pip = Option.none →
      compute_half_spread (Option.some g) = 0)
  ∧ (∀ env st p (tp : ℚ), addMissing p = [] → (pSide p = "BUY" ∨ pSide p = "SELL") →
      addTp? p = Option.some tp → ¬ tp ≤ 0 →
      resolve_flow (pUserType p) (addSending env p) = Option.some "local" →
      env.upsert_ok = true →
      (add_takeprofit env st p).2
        = Result.localAddOk (pOrderId p) (pSymbol p) (pSide p) tp
            (adjusted_price tp (pSide p) (addHalfSpread env p))) := by
  refine ⟨?_, rfl, ?_, ?_, ?_⟩
  · intro g s sp hs hsp; simp [compute_half_spread, hs, hsp]
  · intro g hs; simp [compute_half_spread, hs]
  · intro g hsp
    cases hs : safe_float g.spread <;> simp [compute_half_spread, hs, hsp]
  · intro env st p tp hm hs htp hpos hf hup
    rw [add_eval_local env st p hm hs tp htp hpos hf]
    exact add_local_snd env st _ _ _ _ _ tp _ hup

/-- Witness for C5: the concrete demo add with group data present returns
success with score 2 + 1 = 3; and the numeric half-spread equations at
concrete group data. -/
theorem claim_C5_witness :
    compute_half_spread (Option.some gdStd) = 2 * 1 / 2
    ∧ compute_half_spread (Option.some ⟨Val.str "x", Val.num 1, Val.none⟩) = 0
    ∧ (add_takeprofit (mkEnv (cfgOf Option.none) Option.none) st0 pAddDemo).2
        = Result.localAddOk "O1" "EURUSD" "BUY" 2 2 := by
  refine ⟨claim_C5.1 gdStd 2 1 (by decide) (by decide), ?_, ?_⟩
  · exact claim_C5.2.2.1 ⟨Val.str "x", Val.num 1, Val.none⟩ (by decide)
  · have h := claim_C5.2.2.2.2 (mkEnv (cfgOf Option.none) Option.none) st0 pAddDemo
      2 (by decide) (by decide) (by decide) (by decide) (by decide) (by decide)
    rw [h]
    have h0 : addHalfSpread (mkEnv (cfgOf Option.none) Option.none) pAddDemo = 0 := rfl
    rw [h0]
    have hb : pSide pAddDemo = "BUY" := by decide
    simp only [adjusted_price, hb, if_pos, add_zero]
    decide

/-- C6 counterexample: with an adversarial negative spread the computed
half spread is −1 < 0, refuting "halfSpread ≥ 0 always, never negative
even with adversarial inputs". -/
theorem claim_C6_counterexample :
    compute_half_spread (Option.some ⟨Val.num (-2), Val.num 1, Val.none⟩) = -1
    ∧ ¬ (0 ≤ compute_half_spread (Option.some ⟨Val.num (-2), Val.num 1, Val.none⟩)) := by
  have h : compute_half_spread (Option.some ⟨Val.num (-2), Val.num 1, Val.none⟩) = -1 := by
    norm_num [compute_half_spread, safe_float]
  exact ⟨h, by rw [h]; norm_num⟩

/-- C6 amended: the computed half spread is non-negative whenever the
parsed spread and spread_pip are non-negative (in particular whenever
either fails to parse or the lookup fails); adversarial negative
parameters are the only way to make it negative. -/
theorem claim_C6_amended (g : Option GroupData)
    (h : ∀ gd (s sp : ℚ), g = Option.some gd → safe_float gd.spread = Option.some s →
      safe_float gd.spread_pip = Option.some sp → 0 ≤ s ∧ 0 ≤ sp) :
    0 ≤ compute_half_spread g := by
  match g with
  | Option.none => simp [compute_half_spread]
  | Option.some gd =>
    cases hs : safe_float gd.spread with
    | none => simp [compute_half_spread, hs]
    | some s =>
      cases hsp : safe_float gd.spread_pip with
      | none => simp [compute_half_spread, hs, hsp]
      | some sp =>
        have hss := h gd s sp rfl hs hsp
        simp only [compute_half_spread, hs, hsp]
        exact div_nonneg (mul_nonneg hss.1 hss.2) (by norm_num)

/-- Witness for C6 amended: non-negative parameters give half spread
1 ≥ 0. -/
theorem claim_C6_amended_witness : 0 ≤ compute_half_spread (Option.some gdStd) := by
  apply claim_C6_amended
  intro gd s sp hg hs hsp
  injection hg with hgd
  subst hgd
  have h2 : safe_float gdStd.spread = Option.some 2 := by decide
  have h3 : safe_float gdStd.spread_pip = Option.some 1 := by decide
  rw [h2] at hs
  rw [h3] at hsp
  injection hs with hs2
  injection hsp with hsp2
  subst hs2
  subst hsp2
  constructor <;> norm_num

theorem add_provider_pre_sent (env : Env) (st : State) (p : Payload)
    (oid uid ut sym side : String) :
    (add_provider_pre env st p oid uid ut sym side).sent = st.sent := by
  simp only [add_provider_pre]
  split_ifs <;> rfl

theorem add_provider_pre_redis_mark (env : Env) (st : State) (p : Payload)
    (oid uid ut sym side : String) (h : env.mark_tp_ok = true) :
    (add_provider_pre env st p oid uid ut sym side).redis
      = rhset (rhset st.redis (order_data_key oid)
          [("status", "TAKEPROFIT"), ("symbol", sym), ("order_type", side)])
        (holdings_key ut uid oid) [("status", "TAKEPROFIT")] := by
  simp only [add_provider_pre, h, if_true]
  split_ifs <;> rfl

theorem add_provider_fst (env : Env) (st : State) (p : Payload)
    (oid uid ut sym side group : String) (tp hs : ℚ) :
    (add_provider env st p oid uid ut sym side group tp hs).1
      = { add_provider_pre env st p oid uid ut sym side with
          sent := (add_provider_pre env st p oid uid ut sym side).sent
            ++ [add_provider_msg env (add_provider_pre env st p oid uid ut sym side)
                  p oid sym side group tp hs] } := by
  simp only [add_provider]
  split_ifs <;> rfl

theorem add_provider_snd_ok (env : Env) (st : State) (p : Payload)
    (oid uid ut sym side group : String) (tp hs : ℚ) (h : env.send_ok = true) :
    (add_provider env st p oid uid ut sym side group tp hs).2
      = Result.providerAddOk oid sym side (adjusted_price tp side hs) := by
  simp [add_provider, h]

theorem add_provider_snd_fail (env : Env) (st : State) (p : Payload)
    (oid uid ut sym side group : String) (tp hs : ℚ) (h : env.send_ok = false) :
    (add_provider env st p oid uid ut sym side group tp hs).2
      = Result.providerSendFailed env.send_via := by
  simp [add_provider, h]

/-- C3: on the local add path, a failed trigger-store upsert fails the
whole operation (the TriggerWriteFailed result `upsert_triggers_failed`)
with the state unchanged — no cache mirror and no durable event is
written; a successful upsert returns the success result carrying the
computed score_take_profit for every outcome of the cache-mirror and
publish oracles, so best-effort failures are never propagated. -/
theorem claim_C3 :
    (∀ env st p (tp : ℚ), addMissing p = [] → (pSide p = "BUY" ∨ pSide p = "SELL") →
      addTp? p = Option.some tp → ¬ tp ≤ 0 →
      resolve_flow (pUserType p) (addSending env p) = Option.some "local" →
      env.upsert_ok = false →
      add_takeprofit env st p = (st, Result.upsertTriggersFailed))
  ∧ (∀ env st p (tp : ℚ), addMissing p = [] → (pSide p = "BUY" ∨ pSide p = "SELL") →
      addTp? p = Option.some tp → ¬ tp ≤ 0 →
      resolve_flow (pUserType p) (addSending env p) = Option.some "local" →
      env.upsert_ok = true →
      (add_takeprofit env st p).2
        = Result.localAddOk (pOrderId p) (pSymbol p) (pSide p) tp
            (adjusted_price tp (pSide p) (addHalfSpread env p))) := by
  constructor
  · intro env st p tp hm hs htp hpos hf hup
    rw [add_eval_local env st p hm hs tp htp hpos hf]
    exact add_local_fail env st _ _ _ _ _ tp _ hup
  · intro env st p tp hm hs htp hpos hf hup
    rw [add_eval_local env st p hm hs tp htp hpos hf]
    exact add_local_snd env st _ _ _ _ _ tp _ hup

/-- Witness for C3: with the upsert oracle failing, the concrete demo add
returns the failure result and leaves the state unchanged; with the upsert
succeeding but every best-effort write failing, it still returns success
with score 2 + 1 = 3. -/
theorem claim_C3_witness :
    add_takeprofit { mkEnv (cfgOf Option.none) (Option.some gdStd) with upsert_ok := false }
        st0 pAddDemo = (st0, Result.upsertTriggersFailed)
    ∧ (add_takeprofit { mkEnv (cfgOf Option.none) (Option.some gdStd) with
          mirror_order_data_ok := false, mirror_holdings_ok := false,
          publish_ok := false } st0 pAddDemo).2
      = Result.localAddOk "O1" "EURUSD" "BUY" 2 3 := by
  constructor
  · exact claim_C3.1 _ st0 pAddDemo 2 (by decide) (by decide) (by decide) (by decide)
      (by decide) (by decide)
  · have h := claim_C3.2 { mkEnv (cfgOf Option.none) (Option.some gdStd) with
        mirror_order_data_ok := false, mirror_holdings_ok := false,
        publish_ok := false } st0 pAddDemo 2 (by decide) (by decide) (by decide)
      (by decide) (by decide) (by decide)
    rw [h]
    have hb : pSide pAddDemo = "BUY" := by decide
    have hhs : addHalfSpread { mkEnv (cfgOf Option.none) (Option.some gdStd) with
        mirror_order_data_ok := false, mirror_holdings_ok := false,
        publish_ok := false } pAddDemo = 1 := by
      norm_num [addHalfSpread, mkEnv, compute_half_spread, gdStd, safe_float]
    rw [hhs, hb]
    norm_num [adjusted_price]
    decide

/-- C2: the spread-adjusted price is raw + halfSpread for BUY and
raw − halfSpread for SELL; on the local path the trigger row's
score_take_profit and the returned score are exactly that adjustment of
the parsed take_profit, and on the provider path the takeprofit field of
the payload handed to the gateway is the same adjustment — in every case
computed by the orchestrator from take_profit, order side and the group
spread parameters (the equations pin the score to that function of those
inputs for every payload, so it is never taken from the caller). -/
theorem claim_C2 :
    (∀ raw hs : ℚ, adjusted_price raw "BUY" hs = raw + hs
      ∧ adjusted_price raw "SELL" hs = raw - hs)
  ∧ (∀ env st p (tp : ℚ), addMissing p = [] → (pSide p = "BUY" ∨ pSide p = "SELL") →
      addTp? p = Option.some tp → ¬ tp ≤ 0 →
      resolve_flow (pUserType p) (addSending env p) = Option.some "local" →
      env.upsert_ok = true →
      tget (add_takeprofit env st p).1.triggers (pOrderId p)
        = Option.some ⟨pSymbol p, pSide p, pUserType p, pUserId p, Option.none, tp,
            Option.none, adjusted_price tp (pSide p) (addHalfSpread env p)⟩
      ∧ (add_takeprofit env st p).2
        = Result.localAddOk (pOrderId p) (pSymbol p) (pSide p) tp
            (adjusted_price tp (pSide p) (addHalfSpread env p)))
  ∧ (∀ env st p (tp : ℚ), addMissing p = [] → (pSide p = "BUY" ∨ pSide p = "SELL") →
      addTp? p = Option.some tp → ¬ tp ≤ 0 →
      resolve_flow (pUserType p) (addSending env p) = Option.some "provider" →
      (add_takeprofit env st p).1.sent
        = st.sent ++ [add_provider_msg env
            (add_provider_pre env st p (pOrderId p) (pUserId p) (pUserType p)
              (pSymbol p) (pSide p)) p (pOrderId p) (pSymbol p) (pSide p)
            (addGroup env p) tp (addHalfSpread env p)]
      ∧ (add_provider_msg env
            (add_provider_pre env st p (pOrderId p) (pUserId p) (pUserType p)
              (pSymbol p) (pSide p)) p (pOrderId p) (pSymbol p) (pSide p)
            (addGroup env p) tp (addHalfSpread env p)).takeprofit
        = Option.some (adjusted_price tp (pSide p) (addHalfSpread env p))) := by
  refine ⟨fun raw hs => ⟨by simp [adjusted_price], by simp [adjusted_price]⟩, ?_, ?_⟩
  · intro env st p tp hm hs htp hpos hf hup
    rw [add_eval_local env st p hm hs tp htp hpos hf]
    constructor
    · rw [add_local_triggers env st _ _ _ _ _ tp _ hup]
      simp [tget]
    · exact add_local_snd env st _ _ _ _ _ tp _ hup
  · intro env st p tp hm hs htp hpos hf
    rw [add_eval_provider env st p hm hs tp htp hpos hf]
    constructor
    · rw [add_provider_fst]
      rw [add_provider_pre_sent]
    · simp [add_provider_msg]

/-- Witness for C2: concrete BUY/SELL adjustments; the provider-path send
for a concrete live/barclays SELL order carries takeprofit 2 − 1 = 1. -/
theorem claim_C2_witness :
    adjusted_price 5 "BUY" 1 = 5 + 1
    ∧ adjusted_price 5 "SELL" 1 = 5 - 1
    ∧ (add_provider_msg (mkEnv (cfgOf (Option.some "barclays")) (Option.some gdStd))
        (add_provider_pre (mkEnv (cfgOf (Option.some "barclays")) (Option.some gdStd))
          st0 pAddProv (pOrderId pAddProv) (pUserId pAddProv) (pUserType pAddProv)
          (pSymbol pAddProv) (pSide pAddProv)) pAddProv (pOrderId pAddProv)
        (pSymbol pAddProv) (pSide pAddProv)
        (addGroup (mkEnv (cfgOf (Option.some "barclays")) (Option.some gdStd)) pAddProv)
        2 (addHalfSpread (mkEnv (cfgOf (Option.some "barclays")) (Option.some gdStd)) pAddProv)).takeprofit
      = Option.some 1 := by
  refine ⟨(claim_C2.1 5 1).1, (claim_C2.1 5 1).2, ?_⟩
  have h := (claim_C2.2.2 (mkEnv (cfgOf (Option.some "barclays")) (Option.some gdStd))
    st0 pAddProv 2 (by decide) (by decide) (by decide) (by decide) (by decide)).2
  rw [h]
  have hb : pSide pAddProv = "SELL" := by decide
  have hhs : addHalfSpread (mkEnv (cfgOf (Option.some "barclays")) (Option.some gdStd))
      pAddProv = 1 := by
    norm_num [addHalfSpread, mkEnv, compute_half_spread, gdStd, safe_float]
  rw [hb, hhs]
  norm_num [adjusted_price]
  decide

/-- C10: on the provider add path the best-effort status=TAKEPROFIT
marking of both cache keyspaces happens before the gateway send, so when
the send fails (and the marking write succeeded) the operation returns
ProviderSendFailed while both keyspaces still hold status TAKEPROFIT —
the failure rolls nothing back. -/
theorem claim_C10 (env : Env) (st : State) (p : Payload) (tp : ℚ)
    (hm : addMissing p = []) (hs : pSide p = "BUY" ∨ pSide p = "SELL")
    (htp : addTp? p = Option.some tp) (hpos : ¬ tp ≤ 0)
    (hf : resolve_flow (pUserType p) (addSending env p) = Option.some "provider")
    (hmark : env.mark_tp_ok = true) (hsend : env.send_ok = false) :
    (add_takeprofit env st p).2 = Result.providerSendFailed env.send_via
    ∧ hget (rget (add_takeprofit env st p).1.redis (order_data_key (pOrderId p)))
        "status" = Option.some "TAKEPROFIT"
    ∧ hget (rget (add_takeprofit env st p).1.redis
        (holdings_key (pUserType p) (pUserId p) (pOrderId p)))
        "status" = Option.some "TAKEPROFIT" := by
  rw [add_eval_provider env st p hm hs tp htp hpos hf]
  refine ⟨add_provider_snd_fail _ _ _ _ _ _ _ _ _ _ _ hsend, ?_, ?_⟩
  · rw [add_provider_fst]
    show hget (rget (add_provider_pre env st p _ _ _ _ _).redis _) "status" = _
    rw [add_provider_pre_redis_mark env st p _ _ _ _ _ hmark]
    rw [rget_rhset_ne _ _ _ _ (order_data_key_ne_holdings_key _ _ _ _)]
    rw [rget_rhset_self]
    simp [hget]
  · rw [add_provider_fst]
    show hget (rget (add_provider_pre env st p _ _ _ _ _).redis _) "status" = _
    rw [add_provider_pre_redis_mark env st p _ _ _ _ _ hmark]
    rw [rget_rhset_self]
    simp [hget]

/-- Witness for C10: the concrete live/barclays add with a failing gateway
returns the send failure while both concrete cache records read status
TAKEPROFIT. -/
theorem claim_C10_witness :
    (add_takeprofit { mkEnv (cfgOf (Option.some "barclays")) (Option.some gdStd) with
        send_ok := false } st0 pAddProv).2
      = Result.providerSendFailed "persistent"
    ∧ hget (rget (add_takeprofit { mkEnv (cfgOf (Option.some "barclays"))
          (Option.some gdStd) with send_ok := false } st0 pAddProv).1.redis
        (order_data_key "O1")) "status" = Option.some "TAKEPROFIT"
    ∧ hget (rget (add_takeprofit { mkEnv (cfgOf (Option.some "barclays"))
          (Option.some gdStd) with send_ok := false } st0 pAddProv).1.redis
        (holdings_key "live" "U1" "O1")) "status" = Option.some "TAKEPROFIT" := by
  have h := claim_C10 { mkEnv (cfgOf (Option.some "barclays")) (Option.some gdStd) with
      send_ok := false } st0 pAddProv 2 (by decide) (by decide) (by decide) (by decide)
    (by decide) (by decide) (by decide)
  refine ⟨h.1.trans (by decide), ?_, ?_⟩
  · have h2 := h.2.1
    rw [show pOrderId pAddProv = "O1" from by decide] at h2
    exact h2
  · have h3 := h.2.2
    rw [show pOrderId pAddProv = "O1" from by decide,
        show pUserType pAddProv = "live" from by decide,
        show pUserId pAddProv = "U1" from by decide] at h3
    exact h3

theorem cancel_provider_snd_sendfail (env : Env) (st : State) (p : Payload)
    (oid uid ut sym side : String) (h : env.send_ok = false) :
    (cancel_provider env st p oid uid ut sym side).2
      = Result.providerSendFailed env.send_via := by
  simp [cancel_provider, h]

theorem cancel_provider_markfail (env : Env) (st : State) (p : Payload)
    (oid uid ut sym side : String) (hsend : env.send_ok = true)
    (hmark : env.cancel_mark_ok = false) :
    (cancel_provider env st p oid uid ut sym side).2
      = Result.redisStatusUpdateFailed env.cancel_mark_err
    ∧ (cancel_provider env st p oid uid ut sym side).1.sent
      = st.sent ++ [cancel_provider_msg p oid sym side] := by
  constructor
  · simp [cancel_provider, hsend, hmark]
  · simp only [cancel_provider, hsend, hmark, if_true, if_false, Bool.false_eq_true]
    split_ifs <;> rfl

theorem cancel_provider_snd_ok (env : Env) (st : State) (p : Payload)
    (oid uid ut sym side : String) (hsend : env.send_ok = true)
    (hmark : env.cancel_mark_ok = true) :
    (cancel_provider env st p oid uid ut sym side).2
      = Result.providerCancelOk oid sym side := by
  cases hv : env.verify_read with
  | none => simp [cancel_provider, hsend, hmark, hv]
  | some v =>
    by_cases hveq : v = Option.some "TAKEPROFIT-CANCEL" <;>
      simp [cancel_provider, hsend, hmark, hv, hveq]

/-- C4: on the provider cancel path a gateway-send failure returns the
terminal ProviderSendFailed result carrying the failure channel; after a
successful send, a failure of the status=TAKEPROFIT-CANCEL marking write
returns the terminal RoutingStateWriteFailed result
(`redis_status_update_failed`) even though the message was already handed
to the gateway; and when the marking write succeeds the returned result is
the success result for every outcome of the read-back verification
oracle, so an observed status mismatch never changes the result. -/
theorem claim_C4 :
    (∀ env st p, cancelMissing p = [] → (cSide p = "BUY" ∨ cSide p = "SELL") →
      resolve_flow (cUserType p) (cancelSending env p) = Option.some "provider" →
      env.send_ok = false →
      (cancel_takeprofit env st p).2 = Result.providerSendFailed env.send_via)
  ∧ (∀ env st p, cancelMissing p = [] → (cSide p = "BUY" ∨ cSide p = "SELL") →
      resolve_flow (cUserType p) (cancelSending env p) = Option.some "provider" →
      env.send_ok = true → env.cancel_mark_ok = false →
      (cancel_takeprofit env st p).2 = Result.redisStatusUpdateFailed env.cancel_mark_err
      ∧ (cancel_takeprofit env st p).1.sent
        = st.sent ++ [cancel_provider_msg p (cOrderId p) (cSymbol p) (cSide p)])
  ∧ (∀ env st p, cancelMissing p = [] → (cSide p = "BUY" ∨ cSide p = "SELL") →
      resolve_flow (cUserType p) (cancelSending env p) = Option.some "provider" →
      env.send_ok = true → env.cancel_mark_ok = true →
      ∀ v : Option (Option String),
        (cancel_takeprofit { env with verify_read := v } st p).2
          = Result.providerCancelOk (cOrderId p) (cSymbol p) (cSide p)) := by
  refine ⟨?_, ?_, ?_⟩
  · intro env st p hm hs hf hsend
    rw [cancel_eval_provider env st p hm hs hf]
    exact cancel_provider_snd_sendfail env st p _ _ _ _ _ hsend
  · intro env st p hm hs hf hsend hmark
    rw [cancel_eval_provider env st p hm hs hf]
    exact cancel_provider_markfail env st p _ _ _ _ _ hsend hmark
  · intro env st p hm hs hf hsend hmark v
    rw [cancel_eval_provider { env with verify_read := v } st p hm hs hf]
    exact cancel_provider_snd_ok { env with verify_read := v } st p _ _ _ _ _
      hsend hmark

/-- Witness for C4: the concrete live/barclays cancel returns the send
failure with its channel when the gateway fails; returns the routing-state
failure when the marking write fails after a successful send (the message
already in the sent trace); and returns success even when the read-back
observes the mismatching status "OPEN". -/
theorem claim_C4_witness :
    (cancel_takeprofit { mkEnv (cfgOf (Option.some "barclays")) (Option.some gdStd) with
        send_ok := false } st0 pCancelProv).2
      = Result.providerSendFailed "persistent"
    ∧ (cancel_takeprofit { mkEnv (cfgOf (Option.some "barclays")) (Option.some gdStd) with
        cancel_mark_ok := false } st0 pCancelProv).2
      = Result.redisStatusUpdateFailed "redis down"
    ∧ (cancel_takeprofit { mkEnv (cfgOf (Option.some "barclays")) (Option.some gdStd) with
        verify_read := Option.some (Option.some "OPEN") } st0 pCancelProv).2
      = Result.providerCancelOk "O1" "EURUSD" "SELL" := by
  refine ⟨?_, ?_, ?_⟩
  · have h := claim_C4.1 { mkEnv (cfgOf (Option.some "barclays")) (Option.some gdStd) with
        send_ok := false } st0 pCancelProv (by decide) (by decide) (by decide) (by decide)
    exact h.trans (by decide)
  · have h := (claim_C4.2.1 { mkEnv (cfgOf (Option.some "barclays")) (Option.some gdStd) with
        cancel_mark_ok := false } st0 pCancelProv (by decide) (by decide) (by decide)
        (by decide) (by decide)).1
    exact h.trans (by decide)
  · have h := claim_C4.2.2 (mkEnv (cfgOf (Option.some "barclays")) (Option.some gdStd))
      st0 pCancelProv (by decide) (by decide) (by decide) (by decide) (by decide)
      (Option.some (Option.some "OPEN"))
    exact h.trans (by decide)

theorem tget_tdel_self (l : List (String × Trigger)) (k : String) :
    tget (tdel l k) k = Option.none := by
  induction l with
  | nil => rfl
  | cons kv t ih =>
    obtain ⟨k0, v⟩ := kv
    by_cases hk : k0 = k
    · simpa [tdel, hk] using ih
    · simp [tdel, tget, hk, Ne.symm hk, ih]

theorem cancel_local_snd (env : Env) (st : State) (oid uid ut sym side : String) :
    (cancel_local env st oid uid ut sym side).2 = Result.localCancelOk oid sym side := by
  simp only [cancel_local]

theorem cancel_local_triggers (env : Env) (st : State) (oid uid ut sym side : String)
    (hr : env.remove_trigger_ok = true) :
    (cancel_local env st oid uid ut sym side).1.triggers = tdel st.triggers oid := by
  simp only [cancel_local, hr, if_true]
  split_ifs <;> rfl

theorem cancel_local_redis (env : Env) (st : State) (oid uid ut sym side : String)
    (hc : env.cancel_clear_ok = true) :
    (cancel_local env st oid uid ut sym side).1.redis
      = rhset
          (rhset
            (rhdel (rhdel st.redis (order_data_key oid) "take_profit")
              (holdings_key ut uid oid) "take_profit")
            (order_data_key oid)
            [("status", "OPEN"), ("symbol", sym), ("order_type", side)])
          (holdings_key ut uid oid) [("status", "OPEN")] := by
  simp only [cancel_local, hc, if_true]
  split_ifs <;> rfl

/-- C9: running AddTakeProfit and then CancelTakeProfit for the same
order on the local path, with the external stores accepting the writes,
leaves the trigger store with no trigger for that order id and both cache
keyspaces with status OPEN and no take_profit field. -/
theorem claim_C9 (env : Env) (st : State) (p₁ p₂ : Payload) (tp : ℚ)
    (_hm1 : addMissing p₁ = []) (_hs1 : pSide p₁ = "BUY" ∨ pSide p₁ = "SELL")
    (_htp : addTp? p₁ = Option.some tp) (_hpos : ¬ tp ≤ 0)
    (_hf1 : resolve_flow (pUserType p₁) (addSending env p₁) = Option.some "local")
    (hm2 : cancelMissing p₂ = []) (hs2 : cSide p₂ = "BUY" ∨ cSide p₂ = "SELL")
    (hf2 : resolve_flow (cUserType p₂) (cancelSending env p₂) = Option.some "local")
    (hid : cOrderId p₂ = pOrderId p₁) (hut : cUserType p₂ = pUserType p₁)
    (huid : cUserId p₂ = pUserId p₁)
    (_hup : env.upsert_ok = true) (hr : env.remove_trigger_ok = true)
    (hc : env.cancel_clear_ok = true)
    (st2 : State)
    (hst2 : st2 = (cancel_takeprofit env (add_takeprofit env st p₁).1 p₂).1) :
    tget st2.triggers (pOrderId p₁) = Option.none
    ∧ hget (rget st2.redis (order_data_key (pOrderId p₁))) "status"
        = Option.some "OPEN"
    ∧ hget (rget st2.redis (order_data_key (pOrderId p₁))) "take_profit"
        = Option.none
    ∧ hget (rget st2.redis (holdings_key (pUserType p₁) (pUserId p₁) (pOrderId p₁)))
        "status" = Option.some "OPEN"
    ∧ hget (rget st2.redis (holdings_key (pUserType p₁) (pUserId p₁) (pOrderId p₁)))
        "take_profit" = Option.none := by
  subst hst2
  rw [cancel_eval_local env _ p₂ hm2 hs2 hf2, hid, hut, huid]
  refine ⟨?_, ?_, ?_, ?_, ?_⟩
  · rw [cancel_local_triggers _ _ _ _ _ _ _ hr]
    exact tget_tdel_self _ _
  · rw [cancel_local_redis _ _ _ _ _ _ _ hc]
    rw [rget_rhset_ne _ _ _ _ (order_data_key_ne_holdings_key _ _ _ _)]
    rw [rget_rhset_self]
    simp [hget]
  · rw [cancel_local_redis _ _ _ _ _ _ _ hc]
    rw [rget_rhset_ne _ _ _ _ (order_data_key_ne_holdings_key _ _ _ _)]
    rw [rget_rhset_self]
    rw [rget_rhdel_ne _ _ _ _ (order_data_key_ne_holdings_key _ _ _ _)]
    rw [rget_rhdel_self]
    simp [hget, hget_hdel_self]
  · rw [cancel_local_redis _ _ _ _ _ _ _ hc]
    rw [rget_rhset_self]
    simp [hget]
  · rw [cancel_local_redis _ _ _ _ _ _ _ hc]
    rw [rget_rhset_self]
    rw [rget_rhset_ne _ _ _ _ (Ne.symm (order_data_key_ne_holdings_key _ _ _ _))]
    rw [rget_rhdel_self]
    simp [hget, hget_hdel_self]

/-- Witness for C9: the concrete demo add followed by the matching cancel
leaves no trigger for O1 and both concrete cache records with status OPEN
and no take_profit field. -/
theorem claim_C9_witness :
    tget (cancel_takeprofit (mkEnv (cfgOf Option.none) (Option.some gdStd))
        (add_takeprofit (mkEnv (cfgOf Option.none) (Option.some gdStd)) st0 pAddDemo).1
        pCancelDemo).1.triggers "O1" = Option.none
    ∧ hget (rget (cancel_takeprofit (mkEnv (cfgOf Option.none) (Option.some gdStd))
        (add_takeprofit (mkEnv (cfgOf Option.none) (Option.some gdStd)) st0 pAddDemo).1
        pCancelDemo).1.redis (order_data_key "O1")) "status" = Option.some "OPEN"
    ∧ hget (rget (cancel_takeprofit (mkEnv (cfgOf Option.none) (Option.some gdStd))
        (add_takeprofit (mkEnv (cfgOf Option.none) (Option.some gdStd)) st0 pAddDemo).1
        pCancelDemo).1.redis (order_data_key "O1")) "take_profit" = Option.none
    ∧ hget (rget (cancel_takeprofit (mkEnv (cfgOf Option.none) (Option.some gdStd))
        (add_takeprofit (mkEnv (cfgOf Option.none) (Option.some gdStd)) st0 pAddDemo).1
        pCancelDemo).1.redis (holdings_key "demo" "U1" "O1")) "status"
        = Option.some "OPEN"
    ∧ hget (rget (cancel_takeprofit (mkEnv (cfgOf Option.none) (Option.some gdStd))
        (add_takeprofit (mkEnv (cfgOf Option.none) (Option.some gdStd)) st0 pAddDemo).1
        pCancelDemo).1.redis (holdings_key "demo" "U1" "O1")) "take_profit"
        = Option.none := by
  have h := claim_C9 (mkEnv (cfgOf Option.none) (Option.some gdStd)) st0 pAddDemo
    pCancelDemo 2 (by decide) (by decide) (by decide) (by decide) (by decide)
    (by decide) (by decide) (by decide) (by decide) (by decide) (by decide)
    (by decide) (by decide) (by decide) _ rfl
  rw [show pOrderId pAddDemo = "O1" from by decide,
      show pUserType pAddDemo = "demo" from by decide,
      show pUserId pAddDemo = "U1" from by decide] at h
  exact h

theorem ackLoop_some (reads : Nat → RawAck) (expect : List String) :
    ∀ (fuel i : Nat) (s : String), ackLoop reads expect fuel i = Option.some s →
      ∃ k, k < fuel ∧ ackStatus (reads (i + k)) = Option.some s ∧ s ∈ expect
        ∧ ∀ j, j < k → ∀ s', ackStatus (reads (i + j)) = Option.some s' →
            s' ∉ expect := by
  intro fuel
  induction fuel with
  | zero => intro i s h; simp [ackLoop] at h
  | succ n ih =>
    intro i s h
    simp only [ackLoop] at h
    cases hr : ackStatus (reads i) with
    | none =>
      rw [hr] at h
      obtain ⟨k, hk, h1, h2, h3⟩ := ih (i + 1) s h
      refine ⟨k + 1, by omega, ?_, h2, ?_⟩
      · rw [show i + (k + 1) = i + 1 + k by omega]; exact h1
      · intro j hj s' hs'
        cases j with
        | zero =>
          rw [Nat.add_zero, hr] at hs'
          simp at hs'
        | succ m =>
          refine h3 m (by omega) s' ?_
          rw [show i + 1 + m = i + (m + 1) by omega]; exact hs'
    | some s0 =>
      rw [hr] at h
      have h' : (if s0 ∈ expect then Option.some s0
          else ackLoop reads expect n (i + 1)) = Option.some s := h
      by_cases hmem : s0 ∈ expect
      · rw [if_pos hmem] at h'
        injection h' with he
        subst he
        exact ⟨0, by omega, by simpa using hr, hmem, by intro j hj; omega⟩
      · rw [if_neg hmem] at h'
        obtain ⟨k, hk, h1, h2, h3⟩ := ih (i + 1) s h' 
        refine ⟨k + 1, by omega, ?_, h2, ?_⟩
        · rw [show i + (k + 1) = i + 1 + k by omega]; exact h1
        · intro j hj s' hs'
          cases j with
          | zero =>
            rw [Nat.add_zero, hr] at hs'
            injection hs' with he
            subst he
            exact hmem
          | succ m =>
            refine h3 m (by omega) s' ?_
            rw [show i + 1 + m = i + (m + 1) by omega]; exact hs'

theorem ackLoop_none (reads : Nat → RawAck) (expect : List String) :
    ∀ (fuel i : Nat),
      (∀ k, k < fuel → ∀ s, ackStatus (reads (i + k)) = Option.some s → s ∉ expect) →
      ackLoop reads expect fuel i = Option.none := by
  intro fuel
  induction fuel with
  | zero => intro i _; rfl
  | succ n ih =>
    intro i h
    simp only [ackLoop]
    cases hr : ackStatus (reads i) with
    | none =>
      refine ih (i + 1) ?_
      intro k hk s hs
      refine h (k + 1) (by omega) s ?_
      rw [show i + (k + 1) = i + 1 + k by omega]; exact hs
    | some s0 =>
      show (if s0 ∈ expect then Option.some s0
        else ackLoop reads expect n (i + 1)) = Option.none
      rw [if_neg (h 0 (by omega) s0 (by simpa using hr))]
      refine ih (i + 1) ?_
      intro k hk s hs
      refine h (k + 1) (by omega) s ?_
      rw [show i + (k + 1) = i + 1 + k by omega]; exact hs

/-- C8 counterexample: with expectedStatuses containing the empty string,
a malformed record (JSON that fails to parse, modelled as a record whose
ord_status value is `None`) is returned as the empty status on the very
first poll instead of being treated as not yet present and polling until
the deadline returns "no confirmation". -/
theorem claim_C8_counterexample :
    wait_for_provider_ack (fun _ => RawAck.record Val.none) [""] 100 = Option.some ""
    ∧ wait_for_provider_ack (fun _ => RawAck.record Val.none) [""] 100
        ≠ Option.none := by
  constructor
  · decide
  · decide

/-- C8 amended: a zero-length or already-past deadline returns "no
confirmation" with no poll issued (zero iterations, result independent of
the channel oracle); otherwise the waiter polls at the fixed 100 ms
interval and returns exactly the first computed status that is a
case-insensitive member of expectedStatuses, returning "no confirmation"
when the deadline elapses first; a falsy or missing ord_status — which is
what a malformed record yields — computes the empty status string, so such
records continue polling unless the empty string itself is among the
uppercased expectedStatuses. -/
theorem claim_C8 :
    (∀ (reads : Nat → RawAck) (expected : List String) (t : Int), t ≤ 0 →
      wait_for_provider_ack reads expected t = Option.none ∧ num_polls t = 0)
  ∧ (∀ (reads reads' : Nat → RawAck) (expected : List String) (t : Int), t ≤ 0 →
      wait_for_provider_ack reads expected t = wait_for_provider_ack reads' expected t)
  ∧ (∀ (v : Val), v.truthy = false → ackStatus (RawAck.record v) = Option.some "")
  ∧ (∀ (reads : Nat → RawAck) (expected : List String) (t : Int) (s : String),
      wait_for_provider_ack reads expected t = Option.some s →
      ∃ k, k < num_polls t ∧ ackStatus (reads k) = Option.some s
        ∧ s ∈ expected.map pyUpper
        ∧ ∀ j, j < k → ∀ s', ackStatus (reads j) = Option.some s' →
            s' ∉ expected.map pyUpper)
  ∧ (∀ (reads : Nat → RawAck) (expected : List String) (t : Int),
      (∀ k, k < num_polls t → ∀ s, ackStatus (reads k) = Option.some s →
        s ∉ expected.map pyUpper) →
      wait_for_provider_ack reads expected t = Option.none) := by
  refine ⟨?_, ?_, ?_, ?_, ?_⟩
  · intro reads expected t ht
    constructor
    · simp [wait_for_provider_ack, num_polls, ht, ackLoop]
    · simp [num_polls, ht]
  · intro reads reads' expected t ht
    simp [wait_for_provider_ack, num_polls, ht, ackLoop]
  · intro v hv; simp [ackStatus, hv]
  · intro reads expected t s h
    obtain ⟨k, hk, h1, h2, h3⟩ := ackLoop_some reads (expected.map pyUpper)
      (num_polls t) 0 s h
    exact ⟨k, hk, by simpa using h1, h2, fun j hj s' hs' =>
      h3 j hj s' (by simpa using hs')⟩
  · intro reads expected t h
    exact ackLoop_none reads (expected.map pyUpper) (num_polls t) 0
      (fun k hk s hs => h k hk s (by simpa using hs))

/-- Witness for C8 amended: a zero deadline issues no poll; a channel that
never produces a record returns "no confirmation" after the 5 polls of a
500 ms deadline. -/
theorem claim_C8_witness :
    wait_for_provider_ack (fun _ => RawAck.absent) ["CANCELLED"] 0 = Option.none
    ∧ num_polls 0 = 0
    ∧ wait_for_provider_ack (fun _ => RawAck.absent) ["CANCELLED"] 500
        = Option.none := by
  refine ⟨(claim_C8.1 (fun _ => RawAck.absent) ["CANCELLED"] 0 (by decide)).1,
    (claim_C8.1 (fun _ => RawAck.absent) ["CANCELLED"] 0 (by decide)).2, ?_⟩
  refine claim_C8.2.2.2.2 (fun _ => RawAck.absent) ["CANCELLED"] 500 ?_
  intro k hk s hs
  simp [ackStatus] at hs
